import Mathlib

/-!
# Shallow embedding of the shopping-assistant conversation state and tool layer

This file embeds the reference-resolution core of the conversational
shopping assistant (`conversation_state.py`) and the tool layer that
consumes it (`agent_tools.py`, `services.py`) as executable Lean
definitions, and proves the specified properties about them.

Modelling conventions:
* Python strings are `List Char` (`Str`); `lower`, `strip`, substring
  containment (`in`) and `split` are implemented character-by-character
  (the reference vocabulary is ASCII, so ASCII case folding suffices).
* Python dicts holding products are structures; a key that may be absent
  is an `Option` field.
* Prices (Python floats holding decimal catalog prices) are modelled as
  exact rationals `Rat`; only ordering and subtraction of prices occur.
* A Python function that can raise is modelled with an explicit
  exception-carrying result; structured `{"error": ...}` payloads are a
  separate constructor from a raised exception.
-/

/-- Python strings, modelled as lists of characters. -/
abbrev Str := List Char

/-- ASCII lower-casing, the fragment of Python `str.lower` exercised by the
reference vocabulary. -/
def pyLower (s : Str) : Str := s.map Char.toLower

/-- The whitespace characters stripped by Python `str.strip()` (ASCII part). -/
def pyIsSpace (c : Char) : Bool :=
  c == ' ' || c == '\t' || c == '\n' || c == '\r' || c == '\x0b' || c == '\x0c'

/-- Python `str.strip()`: drop whitespace from both ends. -/
def pyStrip (s : Str) : Str :=
  ((s.dropWhile pyIsSpace).reverse.dropWhile pyIsSpace).reverse

/-- `strStarts pat s` holds when `pat` is an initial segment of `s`. -/
def strStarts : Str → Str → Bool
  | [], _ => true
  | _ :: _, [] => false
  | a :: as, b :: bs => a == b && strStarts as bs

/-- Python substring test `pat in s`. -/
def pyIn (pat : Str) : Str → Bool
  | [] => strStarts pat []
  | s@(_ :: rest) => strStarts pat s || pyIn pat rest

/-- Python `s.split(sep)` for a one-character separator; note
`"".split(",") == [""]`, so the result is always non-empty. -/
def pySplit (sep : Char) : Str → List Str
  | [] => [[]]
  | c :: cs =>
    match pySplit sep cs with
    | h :: t => if c == sep then [] :: h :: t else (c :: h) :: t
    | [] => if c == sep then [[], []] else [[c]]

/-- A product dict as stored in conversation state: keys `id`, `title`,
`price` always present; `category : none` models a dict without the
`"category"` key. -/
structure ProductEntry where
  id : Int
  title : Str
  price : Rat
  category : Option Str
  deriving DecidableEq, Repr

/-- `ConversationState` from `conversation_state.py`: per-session memory of
the last search results and last compared products. -/
structure ConversationState where
  sessionId : Str
  lastSearchResults : List ProductEntry
  lastComparedProducts : List ProductEntry
  deriving DecidableEq, Repr

/-- A fresh state for a session (`ConversationState.__init__`). -/
def ConversationState.init (sessionId : Str) : ConversationState :=
  { sessionId := sessionId, lastSearchResults := [], lastComparedProducts := [] }

/-- The per-product re-keying done by `store_search_results`: keep
`id`/`title`/`price`, set `category` to `p.get("category", "")`. -/
def searchProj (p : ProductEntry) : ProductEntry :=
  { id := p.id, title := p.title, price := p.price,
    category := some (p.category.getD []) }

/-- The per-product re-keying done by `store_compared_products`: keep only
`id`/`title`/`price` (no `"category"` key in the stored dict). -/
def comparedProj (p : ProductEntry) : ProductEntry :=
  { id := p.id, title := p.title, price := p.price, category := none }

/-- `ConversationState.store_search_results`: re-keys each incoming product
dict, replaces `last_search_results`, and resets `last_compared_products`
to `[]`. -/
def store_search_results (st : ConversationState) (products : List ProductEntry) :
    ConversationState :=
  { st with
    lastSearchResults := products.map searchProj,
    lastComparedProducts := [] }

/-- `ConversationState.store_compared_products`: re-keys each incoming
product dict and replaces `last_compared_products`; `last_search_results`
is not touched. -/
def store_compared_products (st : ConversationState) (products : List ProductEntry) :
    ConversationState :=
  { st with lastComparedProducts := products.map comparedProj }

/-- Python `min(l, key=lambda p: p["price"])` on a non-empty list: scan left
to right, replacing the current best only on a strictly smaller key, so the
first occurrence of the minimum wins. `none` on `[]` (Python raises there,
but every call site guards non-emptiness). -/
def pyMinByPrice : List ProductEntry → Option ProductEntry
  | [] => none
  | p :: ps => some (ps.foldl (fun best q => if q.price < best.price then q else best) p)

/-- Python `max(l, key=lambda p: p["price"])`: first occurrence of the
maximum wins. -/
def pyMaxByPrice : List ProductEntry → Option ProductEntry
  | [] => none
  | p :: ps => some (ps.foldl (fun best q => if q.price > best.price then q else best) p)

/-- The `ordinal_map` dict of `resolve_product_reference`; Python dicts
iterate in insertion order, so the association list keeps that order. -/
def ordinalMap : List (Str × Nat) :=
  [("first".data, 0), ("second".data, 1), ("third".data, 2),
   ("fourth".data, 3), ("fifth".data, 4)]

/-- The `for ordinal, index in ordinal_map.items()` loop of
`resolve_product_reference`: `some r` means the loop executed `return` with
value `r` (`r = none` is Python `return None` on an out-of-bounds index);
`none` means the loop fell through to the comparative rules. -/
def ordinalScan (st : ConversationState) (r : Str) :
    List (Str × Nat) → Option (Option ProductEntry)
  | [] => none
  | (w, i) :: rest =>
    if pyIn w r && !(pyIn "two".data r) then some (st.lastSearchResults.get? i)
    else ordinalScan st r rest

/-- `reference.lower().strip()`, the normalisation both resolvers apply. -/
def normRef (reference : Str) : Str := pyStrip (pyLower reference)

/-- The guard of the cheap-comparative rule:
`"cheaper" in r or "cheapest" in r or "lowest" in r`. -/
def cheapHit (r : Str) : Bool :=
  pyIn "cheaper".data r || pyIn "cheapest".data r || pyIn "lowest".data r

/-- The guard of the expensive-comparative rule:
`"expensive" in r or "highest" in r or "most" in r`. -/
def expHit (r : Str) : Bool :=
  pyIn "expensive".data r || pyIn "highest".data r || pyIn "most".data r

/-- `ConversationState.resolve_product_reference`: lower-case and strip the
reference, try the ordinal rule, then the cheap-comparative rule, then the
expensive-comparative rule; `none` is Python `None` (unresolvable). -/
def resolveSingle (st : ConversationState) (reference : Str) : Option ProductEntry :=
  match ordinalScan st (normRef reference) ordinalMap with
  | some res => res
  | none =>
    if cheapHit (normRef reference) then
      if st.lastComparedProducts ≠ [] then pyMinByPrice st.lastComparedProducts
      else if st.lastSearchResults ≠ [] then pyMinByPrice st.lastSearchResults
      else none
    else if expHit (normRef reference) then
      if st.lastComparedProducts ≠ [] then pyMaxByPrice st.lastComparedProducts
      else if st.lastSearchResults ≠ [] then pyMaxByPrice st.lastSearchResults
      else none
    else none

/-- The guard of the first `resolve_product_indices` rule:
`"first two" in r or "top two" in r`. -/
def manyTwoHit (r : Str) : Bool := pyIn "first two".data r || pyIn "top two".data r

/-- The guard of the second `resolve_product_indices` rule:
`"top three" in r or "first three" in r`. -/
def manyThreeHit (r : Str) : Bool := pyIn "top three".data r || pyIn "first three".data r

/-- The guard of the third `resolve_product_indices` rule:
`reference in ["all", "everything"]`. -/
def allHit (r : Str) : Bool := r == "all".data || r == "everything".data

/-- `ConversationState.resolve_product_indices`: multi-product references,
resolved against `last_search_results` only. -/
def resolveMany (st : ConversationState) (reference : Str) : Option (List Nat) :=
  if manyTwoHit (normRef reference) then
    if 2 ≤ st.lastSearchResults.length then some [0, 1] else none
  else if manyThreeHit (normRef reference) then
    if 3 ≤ st.lastSearchResults.length then some [0, 1, 2] else none
  else if allHit (normRef reference) then
    some (List.range st.lastSearchResults.length)
  else none

/-! ## The tool layer (`agent_tools.py`, `services.py`) -/

/-- Parsed JSON values, as produced by `json.loads`. -/
inductive Json where
  | null
  | bool (b : Bool)
  | num (q : Rat)
  | str (s : Str)
  | arr (elems : List Json)
  | obj (fields : List (String × Json))
  deriving Repr

/-- Python truthiness of a parsed JSON value. -/
def pyTruthy : Json → Bool
  | Json.null => false
  | Json.bool b => b
  | Json.num q => q != 0
  | Json.str s => !s.isEmpty
  | Json.arr l => !l.isEmpty
  | Json.obj f => !f.isEmpty

/-- `d.get(k)` on a parsed JSON object (keys of a parsed dict are unique). -/
def jGet (fields : List (String × Json)) (k : String) : Option Json :=
  (fields.find? (fun kv => kv.1 == k)).map (fun kv => kv.2)

/-- Values Python treats as numbers in an order comparison with a float:
numbers and booleans (`True == 1`, `False == 0`); anything else raises
`TypeError` when compared. -/
def jNum? : Json → Option Rat
  | Json.num q => some q
  | Json.bool b => some (if b then 1 else 0)
  | _ => none

/-- Body scanner for Python decimal integer literals: after an initial
digit, digits with single interior underscores are allowed
(`int("1_2") == 12`, `int("1__2")` raises). -/
def pyIntGo : Str → Bool
  | [] => true
  | '_' :: c :: cs => c.isDigit && pyIntGo cs
  | ['_'] => false
  | c :: cs => c.isDigit && pyIntGo cs

/-- A non-empty all-digit (with legal underscores) literal body. -/
def pyDigitsOk : Str → Bool
  | [] => false
  | c :: cs => c.isDigit && pyIntGo cs

/-- Numeric value of a digit run, ignoring underscores. -/
def digitsVal (s : Str) : Nat :=
  (s.filter (fun c => c != '_')).foldl (fun n c => n * 10 + (c.toNat - '0'.toNat)) 0

/-- Python `int(s)` for ASCII decimal literals: strip whitespace, optional
sign, digit run; `none` models a raised `ValueError`. (Non-ASCII digits,
which Python also accepts, are outside the modelled input alphabet.) -/
def pyInt? (s : Str) : Option Int :=
  match pyStrip s with
  | '+' :: rest => if pyDigitsOk rest then some (Int.ofNat (digitsVal rest)) else none
  | '-' :: rest => if pyDigitsOk rest then some (-(Int.ofNat (digitsVal rest))) else none
  | rest => if pyDigitsOk rest then some (Int.ofNat (digitsVal rest)) else none

/-- A full catalog record, as returned by the product API / cache. -/
structure CatalogProduct where
  id : Int
  title : Str
  price : Rat
  category : Str
  description : Str
  image : Str
  deriving DecidableEq, Repr

/-- `ProductService.get_or_cache_product`: the DB cache mirrors the catalog,
so cache-or-fetch is a lookup by id; the cache insertion it performs has no
observable effect on the states modelled here. -/
def lookupProduct (catalog : List CatalogProduct) (pid : Int) : Option CatalogProduct :=
  catalog.find? (fun p => p.id == pid)

/-- Truthiness of an optional Python string (`None` and `""` are falsy). -/
def optStrTruthy : Option Str → Bool
  | none => false
  | some s => !s.isEmpty

/-- Truthiness of an optional Python int (`None` and `0` are falsy). -/
def optIntTruthy : Option Int → Bool
  | none => false
  | some n => n != 0

/-- The price-range list comprehension
`[p for p in products if min_price <= p["price"] <= max_price]` of
`ProductService.search_products`, with Python's chained-comparison
short-circuit: the `max` bound is only evaluated against a product whose
price passed the `min` bound, and a non-numeric bound raises `TypeError`
only when actually compared. `maxJ = none` models the default
`float("inf")` bound. -/
def priceFilterLoop (minJ : Json) (maxJ : Option Json) :
    List CatalogProduct → Except String (List CatalogProduct)
  | [] => .ok []
  | p :: ps =>
    match jNum? minJ with
    | none => .error "TypeError"
    | some mn =>
      if mn ≤ p.price then
        match maxJ with
        | none => (priceFilterLoop minJ maxJ ps).map (fun rest => p :: rest)
        | some mj =>
          match jNum? mj with
          | none => .error "TypeError"
          | some mx =>
            (priceFilterLoop minJ maxJ ps).map
              (fun rest => if p.price ≤ mx then p :: rest else rest)
      else priceFilterLoop minJ maxJ ps

/-- The query/category filtering stage of `ProductService.search_products`
(everything before the price filter): treat a query naming an existing
category as a category filter, otherwise match it against lowercased title
and description, then apply the (possibly query-derived) category filter. -/
def svcSearchFiltered (catalog : List CatalogProduct) (query : Str)
    (category0 : Option Str) : List CatalogProduct :=
  let queryIsCat :=
    !query.isEmpty && catalog.any (fun p => pyLower p.category == pyLower query)
  let category :=
    if queryIsCat && !optStrTruthy category0 then some query else category0
  let products1 :=
    if !query.isEmpty && !queryIsCat then
      catalog.filter (fun p =>
        pyIn (pyLower query) (pyLower p.title) || pyIn (pyLower query) (pyLower p.description))
    else catalog
  match category with
  | some c => if !c.isEmpty then products1.filter (fun p => pyLower p.category == pyLower c)
              else products1
  | none => products1

/-- `ProductService.search_products`: the filtering stage followed by the
price filter. `priceRange` is the already-parsed JSON value passed by the
tool (`none` = Python `None`). `.error` marks a raised exception: `.get` on
a truthy non-dict (`AttributeError`) or a price comparison against a
non-number (`TypeError`). Caching the results in the DB has no observable
effect here and is omitted. -/
def svcSearch (catalog : List CatalogProduct) (query : Str) (category0 : Option Str)
    (priceRange : Option Json) : Except String (List CatalogProduct) :=
  match priceRange with
  | none => .ok (svcSearchFiltered catalog query category0)
  | some j =>
    if pyTruthy j then
      match j with
      | Json.obj fields =>
        priceFilterLoop ((jGet fields "min").getD (Json.num 0)) (jGet fields "max")
          (svcSearchFiltered catalog query category0)
      | _ => .error "AttributeError"
    else .ok (svcSearchFiltered catalog query category0)

/-- One line item of a session's cart (`CartItem` row). -/
structure CartItem where
  productId : Int
  productTitle : Str
  price : Rat
  quantity : Int
  deriving DecidableEq, Repr

/-- Quantity increment on the first matching line item
(`existing_item.quantity += quantity`). -/
def cartInc (pid : Int) (qty : Int) : List CartItem → List CartItem
  | [] => []
  | it :: rest =>
    if it.productId == pid then { it with quantity := it.quantity + qty } :: rest
    else it :: cartInc pid qty rest

/-- `CartService.add_to_cart`: upsert — increment the existing line item's
quantity, or append a new line item. -/
def cartAdd (cart : List CartItem) (pid : Int) (qty : Int) (title : Str) (price : Rat) :
    List CartItem :=
  if cart.any (fun it => it.productId == pid) then cartInc pid qty cart
  else cart ++ [{ productId := pid, productTitle := title, price := price, quantity := qty }]

/-- `CartService.remove_from_cart`: delete the first matching line item
(a no-op when absent). -/
def cartRemove (pid : Int) : List CartItem → List CartItem
  | [] => []
  | it :: rest => if it.productId == pid then rest else it :: cartRemove pid rest

/-- The mutable stores a tool call reads and writes: the session's
conversation state and its cart items. -/
structure ToolState where
  conv : ConversationState
  cart : List CartItem
  deriving DecidableEq, Repr

/-- The comparison analysis block built by `compare_products` when at least
two products are compared. -/
structure CompareAnalysis where
  cheapest : ProductEntry
  mostExpensive : ProductEntry
  priceDifference : Rat
  deriving DecidableEq, Repr

/-- What a tool call hands back to the agent: a typed success payload, a
structured `error` JSON payload, or — distinguished from both — a Python
exception escaping the tool body. -/
inductive ToolResult where
  | okSearch (products : List CatalogProduct)
  | okDetails (p : CatalogProduct)
  | okAdd (productId : Int) (quantity : Int) (title : Str)
  | okRemove (productId : Int)
  | okCart (items : List CartItem) (totalItems : Int) (totalPrice : Rat)
  | okCompare (products : List ProductEntry) (analysis : Option CompareAnalysis)
  | okClear
  | errData (msg : String)
  | raised (msg : String)
  deriving DecidableEq, Repr

/-- An exception escaped the tool body. -/
def ToolResult.isRaised : ToolResult → Bool
  | .raised _ => true
  | _ => false

/-- A structured `error` payload was returned. -/
def ToolResult.isErrData : ToolResult → Bool
  | .errData _ => true
  | _ => false

/-- The observable outcomes of the `price_range` string argument of the
search tool: absent or empty (falsy, no filter), a truthy string rejected
by `json.loads` (`JSONDecodeError`), or a truthy string parsing to the JSON
value `j`. The tool's behaviour depends on the raw string only through this
datum. -/
inductive PriceRangeArg where
  | noArg
  | badJson
  | okJson (j : Json)

/-- The projection of a catalog record passed into conversation state by
the search tool (the `"category"` key is always present on these dicts). -/
def toSearchEntry (c : CatalogProduct) : ProductEntry :=
  { id := c.id, title := c.title, price := c.price, category := some c.category }

/-- The parsed `price_filter` value handed to the service by the search
tool (`None` unless a truthy string parsed). -/
def toolPriceJson : PriceRangeArg → Option Json
  | PriceRangeArg.okJson j => some j
  | _ => none

/-- The `search_products` tool: parse the price range, run the service
search, keep the top 5, store them in conversation state, return them. -/
def search_products (catalog : List CatalogProduct) (st : ToolState) (query : Str)
    (category : Option Str) (priceRange : PriceRangeArg) : ToolState × ToolResult :=
  match priceRange with
  | .badJson => (st, .errData "Invalid price_range format. Use JSON with min and max")
  | pr =>
    match svcSearch catalog query category (toolPriceJson pr) with
    | .error e => (st, .raised e)
    | .ok results =>
      let top := results.take 5
      ({ st with conv := store_search_results st.conv (top.map toSearchEntry) },
       .okSearch top)

/-- The `get_product_details` tool. -/
def get_product_details (catalog : List CatalogProduct) (st : ToolState)
    (productId : Int) : ToolState × ToolResult :=
  match lookupProduct catalog productId with
  | none => (st, .errData "Product not found")
  | some p => (st, .okDetails p)

/-- The `add_to_cart` tool: resolve the reference when given and no (truthy)
product id, require an id, look the product up, upsert into the cart. -/
def add_to_cart (catalog : List CatalogProduct) (st : ToolState)
    (productId : Option Int) (quantity : Int) (reference : Option Str) :
    ToolState × ToolResult :=
  match (if optStrTruthy reference && !optIntTruthy productId then
           match resolveSingle st.conv (reference.getD []) with
           | some resolved => Except.ok (some resolved.id)
           | none => Except.error ()
         else Except.ok productId) with
  | .error _ => (st, .errData "Could not resolve reference")
  | .ok actual =>
    if !optIntTruthy actual then (st, .errData "Product ID or reference required")
    else
      match lookupProduct catalog (actual.getD 0) with
      | none => (st, .errData "Product not found")
      | some product =>
        ({ st with
            cart := cartAdd st.cart (actual.getD 0) quantity product.title product.price },
         .okAdd (actual.getD 0) quantity product.title)

/-- The `remove_from_cart` tool (success even when the item is absent). -/
def remove_from_cart (st : ToolState) (productId : Int) : ToolState × ToolResult :=
  ({ st with cart := cartRemove productId st.cart }, .okRemove productId)

/-- The `get_cart` tool: items plus computed totals. -/
def get_cart (st : ToolState) : ToolState × ToolResult :=
  (st, .okCart st.cart
    (st.cart.foldl (fun n it => n + it.quantity) 0)
    (st.cart.foldl (fun s it => s + it.price * it.quantity) 0))

/-- `int(x.strip()) for x in product_ids.split(",")`; `none` models the
uncaught `ValueError` on the first non-integer token. -/
def parseIds (s : Str) : Option (List Int) :=
  (pySplit ',' s).mapM (fun t => pyInt? (pyStrip t))

/-- The tail of `compare_products` once `products_to_compare` is built:
`if not products_to_compare:` returns the NoProducts error payload, else
the comparison is stored and the payload (with its min/max analysis when
at least two products are compared) is returned. -/
def compareFinish (st : ToolState) (products : List ProductEntry) :
    ToolState × ToolResult :=
  if products.isEmpty then (st, .errData "No products to compare")
  else
    let analysis : Option CompareAnalysis :=
      if 2 ≤ products.length then
        match pyMinByPrice products, pyMaxByPrice products with
        | some cheap, some dear =>
          some { cheapest := cheap, mostExpensive := dear,
                 priceDifference := dear.price - cheap.price }
        | _, _ => none
      else none
    ({ st with conv := store_compared_products st.conv products },
     .okCompare products analysis)

/-- The `compare_products` tool. Note `if indices:` — an empty index list
resolved from `"all"` is falsy and lands in the error branch exactly like a
failed resolution; and the comprehension over indices drops any index not
below `len(last_search_results)`. -/
def compare_products (catalog : List CatalogProduct) (st : ToolState)
    (reference : Option Str) (productIds : Option Str) : ToolState × ToolResult :=
  let branch : Except ToolResult (List ProductEntry) :=
    if optStrTruthy reference then
      match resolveMany st.conv (reference.getD []) with
      | some (i :: is) =>
        .ok ((i :: is).filterMap (fun j => st.conv.lastSearchResults.get? j))
      | _ => .error (.errData "Could not resolve reference")
    else if optStrTruthy productIds then
      match parseIds (productIds.getD []) with
      | none => .error (.raised "ValueError")
      | some ids =>
        .ok (ids.filterMap (fun pid => (lookupProduct catalog pid).map toSearchEntry))
    else .ok []
  match branch with
  | .error r => (st, r)
  | .ok products => compareFinish st products

/-- The `clear_cart` tool. -/
def clear_cart (st : ToolState) : ToolState × ToolResult :=
  ({ st with cart := [] }, .okClear)

/-- `resolve_product_reference` as a state transformer: the method body only
reads `self` (its sole assignment rebinds the local `reference`), so the
translated method returns its state component unchanged. -/
def resolveSingleM (st : ConversationState) (reference : Str) :
    ConversationState × Option ProductEntry :=
  (st, resolveSingle st reference)

/-- `resolve_product_indices` as a state transformer; as with
`resolveSingleM`, the body never assigns to `self`. -/
def resolveManyM (st : ConversationState) (reference : Str) :
    ConversationState × Option (List Nat) :=
  (st, resolveMany st reference)

/-! ## Spec-side characterisations and helper lemmas -/

/-- Spec-side reading of the ordinal rule's guard: the 0-based index of the
first ordinal word (in the fixed order first..fifth) occurring in `r`,
guarded out entirely when `"two"` occurs in `r`. -/
def firstOrdHit (r : Str) : Option Nat :=
  if pyIn "two".data r then none
  else (ordinalMap.find? (fun wi => pyIn wi.1 r)).map (fun wi => wi.2)

/-- Spec-side: the minimum-price entry of a list, ties broken by first
occurrence (the head wins unless a strictly cheaper entry follows). -/
def firstMinByPrice : List ProductEntry → Option ProductEntry
  | [] => none
  | p :: ps =>
    match firstMinByPrice ps with
    | none => some p
    | some q => if q.price < p.price then some q else some p

/-- Spec-side: the maximum-price entry, ties broken by first occurrence. -/
def firstMaxByPrice : List ProductEntry → Option ProductEntry
  | [] => none
  | p :: ps =>
    match firstMaxByPrice ps with
    | none => some p
    | some q => if q.price > p.price then some q else some p

/-- The price-range arguments on which the search pipeline cannot raise: an
absent or unparseable string (the latter is answered with a structured
error before the service runs), a falsy parsed value, or a JSON object
whose `min`/`max` values, where present, are numeric. -/
def priceRangeOk : PriceRangeArg → Prop
  | PriceRangeArg.okJson j =>
      pyTruthy j = true →
      ∃ fields, j = Json.obj fields ∧
        (∀ x, jGet fields "min" = some x → (jNum? x).isSome) ∧
        (∀ x, jGet fields "max" = some x → (jNum? x).isSome)
  | _ => True

/-! ## Concrete fixtures used by witnesses and counterexamples -/

/-- A search-result entry: id 1, price 30. -/
def entA : ProductEntry :=
  { id := 1, title := "alpha".data, price := 30, category := some "cat".data }

/-- A search-result entry: id 2, price 5. -/
def entB : ProductEntry :=
  { id := 2, title := "beta".data, price := 5, category := some "cat".data }

/-- A search-result entry: id 3, price 12. -/
def entC : ProductEntry :=
  { id := 3, title := "gamma".data, price := 12, category := some "cat".data }

/-- A session state holding three search results and no comparison. -/
def stABC : ConversationState :=
  { sessionId := "s".data, lastSearchResults := [entA, entB, entC],
    lastComparedProducts := [] }

/-- A compared entry (price 10); compared entries carry no category key. -/
def cmpP10 : ProductEntry := { id := 4, title := "x".data, price := 10, category := none }

/-- A compared entry (price 25). -/
def cmpP25 : ProductEntry := { id := 5, title := "y".data, price := 25, category := none }

/-- A session state right after comparing two products. -/
def stCmp : ConversationState :=
  { sessionId := "s".data, lastSearchResults := [],
    lastComparedProducts := [cmpP10, cmpP25] }

/-- A session state with only two search results (and a stale comparison). -/
def st2 : ConversationState :=
  { sessionId := "s".data, lastSearchResults := [entA, entB],
    lastComparedProducts := [cmpP10] }

/-- Seven products, ids 1..7, in catalog order. -/
def sevenEntries : List ProductEntry :=
  (List.range 7).map (fun n =>
    { id := Int.ofNat (n + 1), title := "p".data, price := 1,
      category := some "c".data })

/-- A seven-product catalog, ids 1..7. -/
def catalog7 : List CatalogProduct :=
  (List.range 7).map (fun n =>
    { id := Int.ofNat (n + 1), title := "p".data, price := 1,
      category := "c".data, description := "d".data, image := "i".data })

/-- A fresh tool state (empty conversation state, empty cart). -/
def tst0 : ToolState := { conv := ConversationState.init "s".data, cart := [] }

/-- A tool state over `st2`. -/
def tst2 : ToolState := { conv := st2, cart := [] }

/-! ## Helper lemmas -/

/-- The ordinal loop of `resolve_product_reference` returns exactly the
lookup at the first ordinal hit (and falls through iff there is none). -/
theorem ordinalScan_eq_firstOrdHit (st : ConversationState) (r : Str) :
    ordinalScan st r ordinalMap =
      (firstOrdHit r).map (fun i => st.lastSearchResults.get? i) := by
  cases htwo : pyIn "two".data r <;>
  cases h1 : pyIn "first".data r <;> cases h2 : pyIn "second".data r <;>
  cases h3 : pyIn "third".data r <;> cases h4 : pyIn "fourth".data r <;>
  cases h5 : pyIn "fifth".data r <;>
  simp [ordinalScan, ordinalMap, firstOrdHit, htwo, h1, h2, h3, h4, h5, List.find?]

theorem foldl_min_eq (ps : List ProductEntry) :
    ∀ p : ProductEntry,
      ps.foldl (fun best q => if q.price < best.price then q else best) p =
        (match firstMinByPrice ps with
         | none => p
         | some q => if q.price < p.price then q else p) := by
  induction ps with
  | nil => intro p; rfl
  | cons q qs ih =>
    intro p
    rw [List.foldl_cons, ih]
    cases hq : firstMinByPrice qs with
    | none => simp [firstMinByPrice, hq]
    | some r =>
      simp only [firstMinByPrice, hq]
      by_cases h1 : q.price < p.price <;> by_cases h2 : r.price < q.price <;>
        by_cases h3 : r.price < p.price <;>
        simp [h1, h2, h3] <;> first | rfl | linarith

theorem foldl_max_eq (ps : List ProductEntry) :
    ∀ p : ProductEntry,
      ps.foldl (fun best q => if q.price > best.price then q else best) p =
        (match firstMaxByPrice ps with
         | none => p
         | some q => if q.price > p.price then q else p) := by
  induction ps with
  | nil => intro p; rfl
  | cons q qs ih =>
    intro p
    rw [List.foldl_cons, ih]
    cases hq : firstMaxByPrice qs with
    | none => simp [firstMaxByPrice, hq]
    | some r =>
      simp only [firstMaxByPrice, hq]
      by_cases h1 : q.price > p.price <;> by_cases h2 : r.price > q.price <;>
        by_cases h3 : r.price > p.price <;>
        simp [h1, h2, h3] <;> first | rfl | linarith

/-- Python's left-to-right `min` scan computes the first-occurrence
minimum. -/
theorem pyMinByPrice_eq_firstMin (l : List ProductEntry) :
    pyMinByPrice l = firstMinByPrice l := by
  cases l with
  | nil => rfl
  | cons p ps =>
    simp only [pyMinByPrice, foldl_min_eq]
    cases hq : firstMinByPrice ps with
    | none => simp [firstMinByPrice, hq]
    | some r => simp [firstMinByPrice, hq, apply_ite some]

/-- Python's left-to-right `max` scan computes the first-occurrence
maximum. -/
theorem pyMaxByPrice_eq_firstMax (l : List ProductEntry) :
    pyMaxByPrice l = firstMaxByPrice l := by
  cases l with
  | nil => rfl
  | cons p ps =>
    simp only [pyMaxByPrice, foldl_max_eq]
    cases hq : firstMaxByPrice ps with
    | none => simp [firstMaxByPrice, hq]
    | some r => simp [firstMaxByPrice, hq, apply_ite some]

theorem firstMinByPrice_eq_none {l : List ProductEntry} :
    firstMinByPrice l = none ↔ l = [] := by
  cases l with
  | nil => simp [firstMinByPrice]
  | cons p ps =>
    simp only [firstMinByPrice]
    cases firstMinByPrice ps with
    | none => simp
    | some r => simp only []; split <;> simp

theorem firstMaxByPrice_eq_none {l : List ProductEntry} :
    firstMaxByPrice l = none ↔ l = [] := by
  cases l with
  | nil => simp [firstMaxByPrice]
  | cons p ps =>
    simp only [firstMaxByPrice]
    cases firstMaxByPrice ps with
    | none => simp
    | some r => simp only []; split <;> simp

/-- `firstMinByPrice` really is "the minimum, ties broken by first
occurrence": the result sits at an index `i`, is a lower bound of all
prices, and everything strictly before `i` is strictly more expensive. -/
theorem firstMin_is_first_minimum (l : List ProductEntry) (p : ProductEntry)
    (h : firstMinByPrice l = some p) :
    ∃ i, l.get? i = some p ∧ (∀ q ∈ l, p.price ≤ q.price) ∧
      ∀ j, j < i → ∀ q, l.get? j = some q → p.price < q.price := by
  induction l generalizing p with
  | nil => simp [firstMinByPrice] at h
  | cons a as ih =>
    rw [firstMinByPrice] at h
    split at h
    · -- firstMinByPrice as = none, so as = [] and p = a
      next hm =>
        injection h with h
        subst h
        have has : as = [] := firstMinByPrice_eq_none.mp hm
        subst has
        refine ⟨0, rfl, ?_, ?_⟩
        · intro q hq
          simp at hq
          subst hq
          exact le_refl _
        · intro j hj q hq
          omega
    · next r hm =>
        obtain ⟨i', hi'get, hi'lb, hi'str⟩ := ih r hm
        by_cases hlt : r.price < a.price
        · rw [if_pos hlt] at h
          injection h with h
          subst h
          refine ⟨i' + 1, by rw [List.get?_cons_succ]; exact hi'get, ?_, ?_⟩
          · intro q hq
            rcases List.mem_cons.mp hq with hq | hq
            · subst hq; exact le_of_lt hlt
            · exact hi'lb q hq
          · intro j hj q hq
            cases j with
            | zero =>
              rw [List.get?_cons_zero] at hq
              injection hq with hq
              subst hq
              exact hlt
            | succ j' =>
              rw [List.get?_cons_succ] at hq
              exact hi'str j' (by omega) q hq
        · rw [if_neg hlt] at h
          injection h with h
          subst h
          refine ⟨0, rfl, ?_, ?_⟩
          · intro q hq
            rcases List.mem_cons.mp hq with hq | hq
            · subst hq; exact le_refl _
            · exact le_trans (le_of_not_lt hlt) (hi'lb q hq)
          · intro j hj q hq
            omega

/-- `firstMaxByPrice` really is "the maximum, ties broken by first
occurrence". -/
theorem firstMax_is_first_maximum (l : List ProductEntry) (p : ProductEntry)
    (h : firstMaxByPrice l = some p) :
    ∃ i, l.get? i = some p ∧ (∀ q ∈ l, q.price ≤ p.price) ∧
      ∀ j, j < i → ∀ q, l.get? j = some q → q.price < p.price := by
  induction l generalizing p with
  | nil => simp [firstMaxByPrice] at h
  | cons a as ih =>
    rw [firstMaxByPrice] at h
    split at h
    · next hm =>
        injection h with h
        subst h
        have has : as = [] := firstMaxByPrice_eq_none.mp hm
        subst has
        refine ⟨0, rfl, ?_, ?_⟩
        · intro q hq
          simp at hq
          subst hq
          exact le_refl _
        · intro j hj q hq
          omega
    · next r hm =>
        obtain ⟨i', hi'get, hi'lb, hi'str⟩ := ih r hm
        by_cases hlt : r.price > a.price
        · rw [if_pos hlt] at h
          injection h with h
          subst h
          refine ⟨i' + 1, by rw [List.get?_cons_succ]; exact hi'get, ?_, ?_⟩
          · intro q hq
            rcases List.mem_cons.mp hq with hq | hq
            · subst hq; exact le_of_lt hlt
            · exact hi'lb q hq
          · intro j hj q hq
            cases j with
            | zero =>
              rw [List.get?_cons_zero] at hq
              injection hq with hq
              subst hq
              exact hlt
            | succ j' =>
              rw [List.get?_cons_succ] at hq
              exact hi'str j' (by omega) q hq
        · rw [if_neg hlt] at h
          injection h with h
          subst h
          refine ⟨0, rfl, ?_, ?_⟩
          · intro q hq
            rcases List.mem_cons.mp hq with hq | hq
            · subst hq; exact le_refl _
            · exact le_trans (hi'lb q hq) (le_of_not_lt hlt)
          · intro j hj q hq
            omega

/-- Indexing with `get?` at in-bounds indices never drops an element. -/
theorem filterMap_get?_length (xs : List ProductEntry) (l : List Nat)
    (h : ∀ i ∈ l, i < xs.length) :
    (l.filterMap (fun i => xs.get? i)).length = l.length := by
  induction l with
  | nil => rfl
  | cons i is ih =>
    have hi : i < xs.length := h i (List.mem_cons_self i is)
    obtain ⟨a, ha⟩ : ∃ a, xs.get? i = some a := by
      cases hx : xs.get? i with
      | none => exact absurd (List.get?_eq_none.mp hx) (by omega)
      | some a => exact ⟨a, rfl⟩
    have heq : List.filterMap (fun j => xs.get? j) (i :: is) =
        a :: List.filterMap (fun j => xs.get? j) is := by
      rw [List.filterMap_cons, ha]
    rw [heq, List.length_cons,
      ih (fun j hj => h j (List.mem_cons_of_mem i hj))]
    exact (List.length_cons i is).symm

/-- With a numeric `min` bound and a numeric (or defaulted) `max` bound the
price filter never raises. -/
theorem priceFilterLoop_no_raise (minJ : Json) (maxJ : Option Json)
    (hmin : (jNum? minJ).isSome)
    (hmax : ∀ mj, maxJ = some mj → (jNum? mj).isSome) :
    ∀ l, ∃ res, priceFilterLoop minJ maxJ l = .ok res := by
  intro l
  induction l with
  | nil => exact ⟨[], rfl⟩
  | cons p ps ih =>
    obtain ⟨res, hres⟩ := ih
    obtain ⟨mn, hmn⟩ := Option.isSome_iff_exists.mp hmin
    by_cases hle : mn ≤ p.price
    · cases maxJ with
      | none =>
        exact ⟨p :: res, by simp [priceFilterLoop, Except.map, hmn, hle, hres]⟩
      | some mj =>
        obtain ⟨mx, hmx⟩ := Option.isSome_iff_exists.mp (hmax mj rfl)
        exact ⟨if p.price ≤ mx then p :: res else res,
          by simp [priceFilterLoop, Except.map, hmn, hle, hmx, hres]⟩
    · exact ⟨res, by simp [priceFilterLoop, hmn, hle, hres]⟩

/-- The service search cannot raise when the price filter is absent or
well-formed. -/
theorem svcSearch_no_raise (catalog : List CatalogProduct) (q : Str)
    (c : Option Str) (pj : Option Json)
    (hpj : ∀ j, pj = some j → pyTruthy j = true →
      ∃ fields, j = Json.obj fields ∧
        (∀ x, jGet fields "min" = some x → (jNum? x).isSome) ∧
        (∀ x, jGet fields "max" = some x → (jNum? x).isSome)) :
    ∃ res, svcSearch catalog q c pj = .ok res := by
  cases pj with
  | none => exact ⟨_, rfl⟩
  | some j =>
    cases ht : pyTruthy j with
    | false => exact ⟨svcSearchFiltered catalog q c, by simp [svcSearch, ht]⟩
    | true =>
      obtain ⟨fields, hfields, hmin, hmax⟩ := hpj j rfl ht
      subst hfields
      have hminOk : (jNum? ((jGet fields "min").getD (Json.num 0))).isSome := by
        cases hg : jGet fields "min" with
        | none => rfl
        | some x => simpa using hmin x hg
      obtain ⟨res, hres⟩ :=
        priceFilterLoop_no_raise ((jGet fields "min").getD (Json.num 0))
          (jGet fields "max") hminOk (fun mj hmj => hmax mj hmj)
          (svcSearchFiltered catalog q c)
      exact ⟨res, by simp [svcSearch, ht, hres]⟩

/-- The compare tail never raises: it returns either the NoProducts error
payload or a success payload. -/
theorem compareFinish_not_raised (st : ToolState) (products : List ProductEntry) :
    (compareFinish st products).2.isRaised = false := by
  unfold compareFinish
  split <;> rfl

/-- When the compare tail answers with an error (or would raise, which it
cannot), the tool state is handed back unchanged. -/
theorem compareFinish_err_state (st : ToolState) (products : List ProductEntry)
    (h : (compareFinish st products).2.isErrData = true ∨
      (compareFinish st products).2.isRaised = true) :
    (compareFinish st products).1 = st := by
  cases he : products.isEmpty with
  | true => simp [compareFinish, he]
  | false =>
    exfalso
    rcases h with h | h <;>
      simp [compareFinish, he, ToolResult.isErrData, ToolResult.isRaised] at h

/-- A successful search tool call comes from a successful service search:
it returns the first 5 service results and stores their projection. -/
theorem search_products_ok (catalog : List CatalogProduct) (st : ToolState)
    (q : Str) (c : Option Str) (pr : PriceRangeArg) (st' : ToolState)
    (top : List CatalogProduct)
    (h : search_products catalog st q c pr = (st', ToolResult.okSearch top)) :
    ∃ results, svcSearch catalog q c (toolPriceJson pr) = .ok results ∧
      top = results.take 5 ∧
      st' = { st with conv := store_search_results st.conv (top.map toSearchEntry) } := by
  cases pr with
  | badJson => exact absurd (congrArg Prod.snd h) (by simp [search_products])
  | noArg =>
    cases hs : svcSearch catalog q c none with
    | error e =>
      have hE : search_products catalog st q c PriceRangeArg.noArg =
          (st, ToolResult.raised e) := by
        simp [search_products, toolPriceJson, hs]
      rw [hE] at h
      exact absurd (congrArg Prod.snd h) (by simp)
    | ok results =>
      have hE : search_products catalog st q c PriceRangeArg.noArg =
          ({ st with conv :=
              store_search_results st.conv ((results.take 5).map toSearchEntry) },
           ToolResult.okSearch (results.take 5)) := by
        simp [search_products, toolPriceJson, hs]
      rw [hE] at h
      have htop : top = results.take 5 := by
        have := congrArg Prod.snd h
        simp at this
        exact this.symm
      refine ⟨results, by simpa [toolPriceJson] using hs, htop, ?_⟩
      have h1 : ({ st with conv :=
          store_search_results st.conv ((results.take 5).map toSearchEntry) } : ToolState)
          = st' := congrArg Prod.fst h
      rw [htop]
      exact h1.symm
  | okJson j =>
    cases hs : svcSearch catalog q c (some j) with
    | error e =>
      have hE : search_products catalog st q c (PriceRangeArg.okJson j) =
          (st, ToolResult.raised e) := by
        simp [search_products, toolPriceJson, hs]
      rw [hE] at h
      exact absurd (congrArg Prod.snd h) (by simp)
    | ok results =>
      have hE : search_products catalog st q c (PriceRangeArg.okJson j) =
          ({ st with conv :=
              store_search_results st.conv ((results.take 5).map toSearchEntry) },
           ToolResult.okSearch (results.take 5)) := by
        simp [search_products, toolPriceJson, hs]
      rw [hE] at h
      have htop : top = results.take 5 := by
        have := congrArg Prod.snd h
        simp at this
        exact this.symm
      refine ⟨results, by simpa [toolPriceJson] using hs, htop, ?_⟩
      have h1 : ({ st with conv :=
          store_search_results st.conv ((results.take 5).map toSearchEntry) } : ToolState)
          = st' := congrArg Prod.fst h
      rw [htop]
      exact h1.symm

/-! ## Claims -/

/-- **C1 counterexample**: the claim says `storeSearchResults` truncates
its input to the first 5 entries; calling `store_search_results` with 7
products in fact stores all 7. -/
theorem C1_counterexample :
    (store_search_results (ConversationState.init ("s".data))
        sevenEntries).lastSearchResults.length = 7 ∧
    (store_search_results (ConversationState.init ("s".data))
        sevenEntries).lastSearchResults ≠ (sevenEntries.take 5).map searchProj := by
  decide

/-- **C1 (amended)**: `store_search_results` performs no truncation — it
replaces `lastSearchResults` with the projection of its whole input in
order (and resets the comparison set); the cap at 5 lives in the search
tool, which passes only the first 5 service results to the store, so a
search that found 7 products leaves exactly the first 5, in original
order, in `lastSearchResults`. -/
theorem C1_search_truncation :
    (∀ (st : ConversationState) (P : List ProductEntry),
        (store_search_results st P).lastSearchResults = P.map searchProj)
    ∧ (∀ (catalog : List CatalogProduct) (st : ToolState) (q : Str)
        (c : Option Str) (pr : PriceRangeArg) (st' : ToolState)
        (top : List CatalogProduct),
        search_products catalog st q c pr = (st', ToolResult.okSearch top) →
        st'.conv.lastSearchResults = top.map (fun p => searchProj (toSearchEntry p)) ∧
        top.length ≤ 5 ∧
        ∃ results, svcSearch catalog q c (toolPriceJson pr) = .ok results ∧
          top = results.take 5) := by
  constructor
  · intro st P; rfl
  · intro catalog st q c pr st' top h
    obtain ⟨results, hres, htop, hst⟩ := search_products_ok catalog st q c pr st' top h
    refine ⟨?_, ?_, results, hres, htop⟩
    · rw [hst]
      simp [store_search_results, List.map_map]
    · rw [htop]
      simp only [List.length_take]
      omega

/-- **C2**: the ordinal rule fires first — if some ordinal word among
first=0 .. fifth=4 (checked in that order) occurs in the lowercased,
trimmed reference while `"two"` does not occur in it, `resolveSingle`
returns `lastSearchResults` at the first such ordinal's 0-based index when
in bounds and is unresolved when out of bounds, consulting no later
ordinal and no comparative rule; in particular `"first two"` is never
resolved by the ordinal rule (nor any other). -/
theorem C2_ordinal_rule :
    (∀ (st : ConversationState) (ref : Str) (i : Nat),
        firstOrdHit (normRef ref) = some i →
        resolveSingle st ref = st.lastSearchResults.get? i)
    ∧ (∀ st : ConversationState, resolveSingle st ("first two".data) = none) := by
  constructor
  · intro st ref i h
    simp [resolveSingle, ordinalScan_eq_firstOrdHit, h]
  · intro st
    have h : firstOrdHit (normRef ("first two".data)) = none := by decide
    have hc : cheapHit (normRef ("first two".data)) = false := by decide
    have he : expHit (normRef ("first two".data)) = false := by decide
    simp [resolveSingle, ordinalScan_eq_firstOrdHit, h, hc, he]

/-- **C3**: when the ordinal rule does not fire, a reference containing
`cheaper`/`cheapest`/`lowest` resolves to the first-occurrence minimum-price
entry of `lastComparedProducts`, falling back to `lastSearchResults`, and
unresolved when both are empty; a reference containing
`expensive`/`highest`/`most` (and none of the cheap words) does the same
with the maximum; ties are broken by first occurrence in the sequence. -/
theorem C3_comparative_rules :
    (∀ (st : ConversationState) (ref : Str),
      firstOrdHit (normRef ref) = none →
      ((cheapHit (normRef ref) = true →
        resolveSingle st ref =
          firstMinByPrice
            (if st.lastComparedProducts = [] then st.lastSearchResults
             else st.lastComparedProducts)) ∧
       (cheapHit (normRef ref) = false → expHit (normRef ref) = true →
        resolveSingle st ref =
          firstMaxByPrice
            (if st.lastComparedProducts = [] then st.lastSearchResults
             else st.lastComparedProducts))))
    ∧ (∀ (l : List ProductEntry) (p : ProductEntry), firstMinByPrice l = some p →
        ∃ i, l.get? i = some p ∧ (∀ q ∈ l, p.price ≤ q.price) ∧
          ∀ j, j < i → ∀ q, l.get? j = some q → p.price < q.price)
    ∧ (∀ (l : List ProductEntry) (p : ProductEntry), firstMaxByPrice l = some p →
        ∃ i, l.get? i = some p ∧ (∀ q ∈ l, q.price ≤ p.price) ∧
          ∀ j, j < i → ∀ q, l.get? j = some q → q.price < p.price) := by
  refine ⟨?_, firstMin_is_first_minimum, firstMax_is_first_maximum⟩
  intro st ref hord
  constructor
  · intro hch
    by_cases hc : st.lastComparedProducts = []
    · by_cases hs : st.lastSearchResults = []
      · simp [resolveSingle, ordinalScan_eq_firstOrdHit, hord, hch, hc, hs,
          firstMinByPrice]
      · simp [resolveSingle, ordinalScan_eq_firstOrdHit, hord, hch, hc, hs,
          pyMinByPrice_eq_firstMin]
    · simp [resolveSingle, ordinalScan_eq_firstOrdHit, hord, hch, hc,
        pyMinByPrice_eq_firstMin]
  · intro hch hex
    by_cases hc : st.lastComparedProducts = []
    · by_cases hs : st.lastSearchResults = []
      · simp [resolveSingle, ordinalScan_eq_firstOrdHit, hord, hch, hex, hc, hs,
          firstMaxByPrice]
      · simp [resolveSingle, ordinalScan_eq_firstOrdHit, hord, hch, hex, hc, hs,
          pyMaxByPrice_eq_firstMax]
    · simp [resolveSingle, ordinalScan_eq_firstOrdHit, hord, hch, hex, hc,
        pyMaxByPrice_eq_firstMax]

/-- **C4**: `store_search_results` always resets `lastComparedProducts` to
the empty sequence, whatever comparison was previously stored. -/
theorem C4_store_search_resets_compared :
    ∀ (st : ConversationState) (P : List ProductEntry),
      (store_search_results st P).lastComparedProducts = [] :=
  fun _ _ => rfl

/-- **C5 counterexample**: `store_compared_products` does not store its
input verbatim — the stored dict for an input entry carrying a category
has no `category` key, so the stored list differs from the input. -/
theorem C5_counterexample :
    (store_compared_products (ConversationState.init ("s".data))
      [entA]).lastComparedProducts ≠ [entA] := by decide

/-- **C5 (amended)**: `store_compared_products` replaces
`lastComparedProducts` with its input in order and without truncation,
retaining `id`/`title`/`price` of every entry but dropping the `category`
field, and leaves `lastSearchResults` exactly as it was. -/
theorem C5_store_compared :
    ∀ (st : ConversationState) (C : List ProductEntry),
      (store_compared_products st C).lastComparedProducts = C.map comparedProj ∧
      (store_compared_products st C).lastComparedProducts.length = C.length ∧
      (store_compared_products st C).lastSearchResults = st.lastSearchResults := by
  intro st C
  exact ⟨rfl, by simp [store_compared_products], rfl⟩

/-- **C6**: `resolveMany` evaluates its rules in order — `[0,1]` for
`first two`/`top two` when at least 2 results exist (unresolved below 2),
else `[0,1,2]` for `top three`/`first three` when at least 3 exist
(unresolved below 3), else all indices `0..n-1` when the trimmed reference
equals `all` or `everything` (the empty sequence for `n = 0` being a
valid resolution), else unresolved. -/
theorem C6_resolve_many :
    ∀ (st : ConversationState) (ref : Str),
      (manyTwoHit (normRef ref) = true →
        resolveMany st ref =
          if 2 ≤ st.lastSearchResults.length then some [0, 1] else none) ∧
      (manyTwoHit (normRef ref) = false → manyThreeHit (normRef ref) = true →
        resolveMany st ref =
          if 3 ≤ st.lastSearchResults.length then some [0, 1, 2] else none) ∧
      (manyTwoHit (normRef ref) = false → manyThreeHit (normRef ref) = false →
        allHit (normRef ref) = true →
        resolveMany st ref = some (List.range st.lastSearchResults.length)) ∧
      (manyTwoHit (normRef ref) = false → manyThreeHit (normRef ref) = false →
        allHit (normRef ref) = false → resolveMany st ref = none) ∧
      (allHit (normRef ref) = true → manyTwoHit (normRef ref) = false →
        manyThreeHit (normRef ref) = false → st.lastSearchResults = [] →
        resolveMany st ref = some []) := by
  intro st ref
  refine ⟨fun h1 => ?_, fun h1 h2 => ?_, fun h1 h2 h3 => ?_, fun h1 h2 h3 => ?_,
    fun h1 h2 h3 h4 => ?_⟩ <;> simp [resolveMany, *]

/-- **C9**: every index sequence returned by `resolveMany` is strictly
in-bounds for `lastSearchResults` at resolution time, so the compare
tool's defensive in-bounds filter drops nothing. -/
theorem C9_indices_in_bounds :
    ∀ (st : ConversationState) (ref : Str) (l : List Nat),
      resolveMany st ref = some l →
      (∀ i ∈ l, i < st.lastSearchResults.length) ∧
      (l.filterMap (fun i => st.lastSearchResults.get? i)).length = l.length := by
  intro st ref l h
  have hb : ∀ i ∈ l, i < st.lastSearchResults.length := by
    rw [resolveMany] at h
    split at h
    · split at h
      · next hn =>
          injection h with h
          subst h
          intro i hi
          simp at hi
          rcases hi with rfl | rfl <;> omega
      · exact absurd h (by simp)
    · split at h
      · split at h
        · next hn =>
            injection h with h
            subst h
            intro i hi
            simp at hi
            rcases hi with rfl | rfl | rfl <;> omega
        · exact absurd h (by simp)
      · split at h
        · injection h with h
          subst h
          intro i hi
          exact List.mem_range.mp hi
        · exact absurd h (by simp)
  exact ⟨hb, filterMap_get?_length _ _ hb⟩

/-- **C10**: the resolvers are pure reads — both return their state
component unchanged whether or not the reference resolves — and the
`add_to_cart` tool, which consumes `resolveSingle`, leaves conversation
state untouched as well. -/
theorem C10_resolvers_pure :
    ∀ (st : ConversationState) (ref : Str),
      (resolveSingleM st ref).1 = st ∧ (resolveManyM st ref).1 = st ∧
      (∀ (catalog : List CatalogProduct) (tst : ToolState) (pid : Option Int)
        (qty : Int), (add_to_cart catalog tst pid qty (some ref)).1.conv = tst.conv) := by
  intro st ref
  refine ⟨rfl, rfl, ?_⟩
  intro catalog tst pid qty
  unfold add_to_cart
  split
  · rfl
  · split
    · rfl
    · split
      · rfl
      · rfl

/-- **C7 counterexample**: two tool calls raise past the tool boundary —
`compare_products` raises `ValueError` on a non-numeric comma-list of
product ids, and `search_products` raises `AttributeError` when
`price_range` parses to truthy JSON that is not an object. -/
theorem C7_counterexample :
    (compare_products [] tst0 none (some ("abc,def".data))).2.isRaised = true ∧
    (search_products [] tst0 [] none
      (PriceRangeArg.okJson (Json.num 5))).2.isRaised = true := by
  decide

/-- **C7 (amended)**: every tool call returns a structured result — a
success payload or an error payload — except for two raising paths: the
search tool raises when `price_range` parses to a truthy JSON value that
is not an object, or to an object with a non-numeric `min`/`max` bound
that gets compared; and the compare tool raises `ValueError` when called
without a reference and with a `product_ids` string containing a
non-integer token. Outside those paths no exception escapes the tool
boundary; an unparseable `price_range` string in particular is answered
with a structured error payload. -/
theorem C7_structured_results :
    (∀ (catalog : List CatalogProduct) (st : ToolState) (pid : Int),
        (get_product_details catalog st pid).2.isRaised = false)
    ∧ (∀ (catalog : List CatalogProduct) (st : ToolState) (pid : Option Int)
        (qty : Int) (ref : Option Str),
        (add_to_cart catalog st pid qty ref).2.isRaised = false)
    ∧ (∀ (st : ToolState) (pid : Int), (remove_from_cart st pid).2.isRaised = false)
    ∧ (∀ st : ToolState, (get_cart st).2.isRaised = false)
    ∧ (∀ st : ToolState, (clear_cart st).2.isRaised = false)
    ∧ (∀ (catalog : List CatalogProduct) (st : ToolState) (q : Str)
        (c : Option Str) (pr : PriceRangeArg), priceRangeOk pr →
        (search_products catalog st q c pr).2.isRaised = false)
    ∧ (∀ (catalog : List CatalogProduct) (st : ToolState) (ref pids : Option Str),
        (optStrTruthy ref = false → optStrTruthy pids = true →
          (parseIds (pids.getD [])).isSome) →
        (compare_products catalog st ref pids).2.isRaised = false) := by
  refine ⟨?_, ?_, fun st pid => rfl, fun st => rfl, fun st => rfl, ?_, ?_⟩
  · intro catalog st pid
    unfold get_product_details
    split <;> rfl
  · intro catalog st pid qty ref
    unfold add_to_cart
    split
    · rfl
    · split
      · rfl
      · split <;> rfl
  · intro catalog st q c pr hok
    cases pr with
    | badJson => rfl
    | noArg =>
      obtain ⟨res, hres⟩ :=
        svcSearch_no_raise catalog q c none (fun j hj => by simp at hj)
      simp [search_products, toolPriceJson, hres, ToolResult.isRaised]
    | okJson j =>
      obtain ⟨res, hres⟩ := svcSearch_no_raise catalog q c (some j)
        (fun j' hj' ht => by
          injection hj' with hj2
          subst hj2
          exact hok ht)
      simp [search_products, toolPriceJson, hres, ToolResult.isRaised]
  · intro catalog st ref pids hok
    by_cases href : optStrTruthy ref = true
    · cases hr : resolveMany st.conv (ref.getD []) with
      | none => simp [compare_products, href, hr, ToolResult.isRaised]
      | some l =>
        cases l with
        | nil => simp [compare_products, href, hr, ToolResult.isRaised]
        | cons i is =>
          have hE : compare_products catalog st ref pids =
              compareFinish st ((i :: is).filterMap
                (fun j => st.conv.lastSearchResults.get? j)) := by
            simp [compare_products, href, hr]
          rw [hE]
          exact compareFinish_not_raised _ _
    · have href' : optStrTruthy ref = false := by
        revert href
        cases optStrTruthy ref <;> simp
      by_cases hpids : optStrTruthy pids = true
      · obtain ⟨ids, hids⟩ := Option.isSome_iff_exists.mp (hok href' hpids)
        have hE : compare_products catalog st ref pids =
            compareFinish st (ids.filterMap
              (fun pid => (lookupProduct catalog pid).map toSearchEntry)) := by
          simp [compare_products, href', hpids, hids]
        rw [hE]
        exact compareFinish_not_raised _ _
      · have hpids' : optStrTruthy pids = false := by
          revert hpids
          cases optStrTruthy pids <;> simp
        have hE : compare_products catalog st ref pids = compareFinish st [] := by
          simp [compare_products, href', hpids']
        rw [hE]
        exact compareFinish_not_raised _ _

/-- **C8**: a tool call that returns an error payload leaves the session's
conversation state unchanged, and only the success paths of the search and
compare tools ever change it — the remaining tools never touch it,
whatever the outcome. -/
theorem C8_errors_preserve_state :
    (∀ (catalog : List CatalogProduct) (st : ToolState) (q : Str)
        (c : Option Str) (pr : PriceRangeArg),
        ((search_products catalog st q c pr).2.isErrData = true ∨
         (search_products catalog st q c pr).2.isRaised = true) →
        (search_products catalog st q c pr).1.conv = st.conv)
    ∧ (∀ (catalog : List CatalogProduct) (st : ToolState) (ref pids : Option Str),
        ((compare_products catalog st ref pids).2.isErrData = true ∨
         (compare_products catalog st ref pids).2.isRaised = true) →
        (compare_products catalog st ref pids).1.conv = st.conv)
    ∧ (∀ (catalog : List CatalogProduct) (st : ToolState) (pid : Option Int)
        (qty : Int) (ref : Option Str),
        (add_to_cart catalog st pid qty ref).1.conv = st.conv)
    ∧ (∀ (catalog : List CatalogProduct) (st : ToolState) (pid : Int),
        (get_product_details catalog st pid).1.conv = st.conv)
    ∧ (∀ (st : ToolState) (pid : Int), (remove_from_cart st pid).1.conv = st.conv)
    ∧ (∀ st : ToolState, (get_cart st).1.conv = st.conv)
    ∧ (∀ st : ToolState, (clear_cart st).1.conv = st.conv) := by
  refine ⟨?_, ?_, ?_, ?_, fun st pid => rfl, fun st => rfl, fun st => rfl⟩
  · intro catalog st q c pr hcontra
    cases pr with
    | badJson => rfl
    | noArg =>
      cases hs : svcSearch catalog q c none with
      | error e => simp [search_products, toolPriceJson, hs]
      | ok results =>
        exfalso
        rcases hcontra with hc | hc <;>
          simp [search_products, toolPriceJson, hs, ToolResult.isErrData,
            ToolResult.isRaised] at hc
    | okJson j =>
      cases hs : svcSearch catalog q c (some j) with
      | error e => simp [search_products, toolPriceJson, hs]
      | ok results =>
        exfalso
        rcases hcontra with hc | hc <;>
          simp [search_products, toolPriceJson, hs, ToolResult.isErrData,
            ToolResult.isRaised] at hc
  · intro catalog st ref pids hcontra
    by_cases href : optStrTruthy ref = true
    · cases hr : resolveMany st.conv (ref.getD []) with
      | none => simp [compare_products, href, hr]
      | some l =>
        cases l with
        | nil => simp [compare_products, href, hr]
        | cons i is =>
          have hE : compare_products catalog st ref pids =
              compareFinish st ((i :: is).filterMap
                (fun j => st.conv.lastSearchResults.get? j)) := by
            simp [compare_products, href, hr]
          rw [hE] at hcontra ⊢
          rw [compareFinish_err_state st _ hcontra]
    · have href' : optStrTruthy ref = false := by
        revert href
        cases optStrTruthy ref <;> simp
      by_cases hpids : optStrTruthy pids = true
      · cases hp : parseIds (pids.getD []) with
        | none => simp [compare_products, href', hpids, hp]
        | some ids =>
          have hE : compare_products catalog st ref pids =
              compareFinish st (ids.filterMap
                (fun pid => (lookupProduct catalog pid).map toSearchEntry)) := by
            simp [compare_products, href', hpids, hp]
          rw [hE] at hcontra ⊢
          rw [compareFinish_err_state st _ hcontra]
      · have hpids' : optStrTruthy pids = false := by
          revert hpids
          cases optStrTruthy pids <;> simp
        have hE : compare_products catalog st ref pids = compareFinish st [] := by
          simp [compare_products, href', hpids']
        rw [hE] at hcontra ⊢
        rw [compareFinish_err_state st _ hcontra]
  · intro catalog st pid qty ref
    unfold add_to_cart
    split
    · rfl
    · split
      · rfl
      · split
        · rfl
        · rfl
  · intro catalog st pid
    unfold get_product_details
    split <;> rfl

/-! ## Witnesses: the claim theorems instantiated at concrete inputs -/

/-- C1 instantiated: a search over a 7-product catalog stores exactly the
first 5 projected results. -/
theorem C1_search_truncation_witness :
    (search_products catalog7 tst0 [] none PriceRangeArg.noArg).1.conv.lastSearchResults
      = (catalog7.take 5).map (fun p => searchProj (toSearchEntry p)) ∧
    (catalog7.take 5).length ≤ 5 :=
  have h : search_products catalog7 tst0 [] none PriceRangeArg.noArg =
      ((search_products catalog7 tst0 [] none PriceRangeArg.noArg).1,
       ToolResult.okSearch (catalog7.take 5)) := by decide
  ⟨(C1_search_truncation.2 catalog7 tst0 [] none PriceRangeArg.noArg _
      (catalog7.take 5) h).1,
   (C1_search_truncation.2 catalog7 tst0 [] none PriceRangeArg.noArg _
      (catalog7.take 5) h).2.1⟩

/-- C2 instantiated: `"second one"` resolves to the second stored result. -/
theorem C2_ordinal_rule_witness :
    firstOrdHit (normRef ("second one".data)) = some 1 ∧
    resolveSingle stABC ("second one".data) = stABC.lastSearchResults.get? 1 ∧
    stABC.lastSearchResults.get? 1 = some entB :=
  ⟨by decide, C2_ordinal_rule.1 stABC ("second one".data) 1 (by decide), by decide⟩

/-- C3 instantiated: `"cheaper one"` picks the price-10 compared product;
with no comparison stored, `"the cheapest"` falls back to the cheapest
search result. -/
theorem C3_comparative_rules_witness :
    firstOrdHit (normRef ("cheaper one".data)) = none ∧
    cheapHit (normRef ("cheaper one".data)) = true ∧
    resolveSingle stCmp ("cheaper one".data) = some cmpP10 ∧
    resolveSingle stABC ("the cheapest".data) = some entB :=
  ⟨by decide, by decide,
   ((C3_comparative_rules.1 stCmp ("cheaper one".data) (by decide)).1
      (by decide)).trans (by decide),
   ((C3_comparative_rules.1 stABC ("the cheapest".data) (by decide)).1
      (by decide)).trans (by decide)⟩

/-- C6 instantiated: `"first two"` on three stored results gives `[0, 1]`;
`"all"` on an empty result set resolves to the empty index list. -/
theorem C6_resolve_many_witness :
    manyTwoHit (normRef ("first two".data)) = true ∧
    resolveMany stABC ("first two".data) =
      (if 2 ≤ stABC.lastSearchResults.length then some [0, 1] else none) ∧
    resolveMany (ConversationState.init ("e".data)) ("all".data) = some [] :=
  ⟨by decide, (C6_resolve_many stABC ("first two".data)).1 (by decide),
   (C6_resolve_many (ConversationState.init ("e".data)) ("all".data)).2.2.2.2
     (by decide) (by decide) (by decide) rfl⟩

/-- C7 instantiated: a well-formed price range and a numeric id list keep
both raising-capable tools on the structured-result path. -/
theorem C7_structured_results_witness :
    priceRangeOk (PriceRangeArg.okJson (Json.obj [("min", Json.num 5)])) ∧
    (search_products catalog7 tst0 [] none
      (PriceRangeArg.okJson (Json.obj [("min", Json.num 5)]))).2.isRaised = false ∧
    (compare_products catalog7 tst0 none (some ("1,2".data))).2.isRaised = false := by
  have hpr : priceRangeOk (PriceRangeArg.okJson (Json.obj [("min", Json.num 5)])) := by
    intro _
    refine ⟨[("min", Json.num 5)], rfl, ?_, ?_⟩
    · intro x hx
      have he : jGet [("min", Json.num 5)] "min" = some (Json.num 5) := rfl
      rw [he] at hx
      injection hx with hx2
      subst hx2
      rfl
    · intro x hx
      have he : jGet [("min", Json.num 5)] "max" = none := rfl
      rw [he] at hx
      exact Option.noConfusion hx
  exact ⟨hpr,
    C7_structured_results.2.2.2.2.2.1 catalog7 tst0 [] none
      (PriceRangeArg.okJson (Json.obj [("min", Json.num 5)])) hpr,
    C7_structured_results.2.2.2.2.2.2 catalog7 tst0 none (some ("1,2".data))
      (fun _ _ => by decide)⟩

/-- C8 instantiated: comparing `"top three"` with only two stored results
yields an error payload and leaves conversation state untouched. -/
theorem C8_errors_preserve_state_witness :
    (compare_products [] tst2 (some ("top three".data)) none).2.isErrData = true ∧
    (compare_products [] tst2 (some ("top three".data)) none).1.conv = tst2.conv :=
  have h : (compare_products [] tst2 (some ("top three".data)) none).2.isErrData
      = true := by decide
  ⟨h, C8_errors_preserve_state.2.1 [] tst2 (some ("top three".data)) none (Or.inl h)⟩

/-- C9 instantiated: `"first two"` on three stored results resolves to
in-bounds indices and the defensive filter keeps both. -/
theorem C9_indices_in_bounds_witness :
    resolveMany stABC ("first two".data) = some [0, 1] ∧
    (∀ i ∈ [0, 1], i < stABC.lastSearchResults.length) ∧
    ([0, 1].filterMap (fun i => stABC.lastSearchResults.get? i)).length
      = [0, 1].length :=
  have h : resolveMany stABC ("first two".data) = some [0, 1] := by decide
  ⟨h, (C9_indices_in_bounds stABC ("first two".data) [0, 1] h).1,
   (C9_indices_in_bounds stABC ("first two".data) [0, 1] h).2⟩
